import Mathlib

/-!
# Reverse proxy core of `proxyFatory` (reverse_proxy.go)

A shallow embedding of the two closures that `buildProxy` installs in the
`httputil.ReverseProxy` value it returns:

* `Director`: the in-place rewrite of the outbound request, as a function
  `Request → Option Request` (`none` is a Go run-time panic);
* `ErrorHandler`: the mapping of a transport error to a status code and the
  calls it makes on the response writer, as a trace of events.

Go maps are finite partial functions; `Header` is embedded as a function from
keys to optional value lists, a nil slice being the empty list.
-/

set_option autoImplicit false

namespace ProxyFatory

/-! ## Constants -/

/-- StatusClientClosedRequest: non-standard HTTP status code for client disconnection. -/
def StatusClientClosedRequest : Int := 499

/-- StatusClientClosedRequestText: non-standard HTTP status for client disconnection. -/
def StatusClientClosedRequestText : String := "Client Closed Request"

/-- The constant `http.StatusInternalServerError`. -/
def StatusInternalServerError : Int := 500

/-- The constant `http.StatusBadGateway`. -/
def StatusBadGateway : Int := 502

/-- The constant `http.StatusGatewayTimeout`. -/
def StatusGatewayTimeout : Int := 504

/-! ## Data model -/

/-- The type `url.Userinfo`: a user name and an optional password. -/
structure Userinfo where
  username : String
  password : Option String
  deriving DecidableEq, Repr

/-- The type `url.URL`, field by field. -/
structure URL where
  Scheme : String
  Opaque : String
  User : Option Userinfo
  Host : String
  Path : String
  RawPath : String
  ForceQuery : Bool
  RawQuery : String
  Fragment : String
  deriving DecidableEq, Repr

/-- The type `http.Header`, a `map[string][]string`: a key is either absent
(`none`) or bound to a value list (`some vs`; a nil slice is `[]`). -/
abbrev Header := String → Option (List String)

/-- The empty, non-nil header map `http.Header{}`. -/
def Header.empty : Header := fun _ => none

/-- Map read `h[key]`: the bound value list, or the nil slice for an absent key. -/
def Header.index (h : Header) (key : String) : List String :=
  (h key).getD []

/-- Map write `h[key] = vs`. -/
def Header.assign (h : Header) (key : String) (vs : List String) : Header :=
  fun k => if k = key then some vs else h k

/-- The builtin `delete(h, key)`. -/
def Header.delete (h : Header) (key : String) : Header :=
  fun k => if k = key then none else h k

/-- The bytes Go's `textproto` accepts in a header field name (RFC 7230 token
characters). -/
def validHeaderFieldByte (c : Char) : Bool :=
  c.isAlphanum || "!#$%&'*+-.^_`|~".data.contains c

/-- The case-folding loop of `textproto.canonicalMIMEHeaderKey`: upper case for the
first letter and for each letter after a dash, lower case elsewhere. -/
def canonicalizeBytes : Bool → List Char → List Char
  | _, [] => []
  | upper, c :: cs =>
    let c1 := if upper && c.isLower then c.toUpper
              else if !upper && c.isUpper then c.toLower
              else c
    c1 :: canonicalizeBytes (c1 == '-') cs

/-- The library function `textproto.CanonicalMIMEHeaderKey`, which `Header.Add` and
`Header.Set` apply to their key: a key holding a byte that is not a valid header
field byte is returned unchanged, any other key is case-folded. -/
def CanonicalMIMEHeaderKey (s : String) : String :=
  if s.data.all validHeaderFieldByte then String.mk (canonicalizeBytes true s.data) else s

/-- The method `Header.Add(key, value)` on a non-nil map:
`h[canonical key] = append(h[canonical key], value)`. -/
def Header.Add (h : Header) (key value : String) : Header :=
  h.assign (CanonicalMIMEHeaderKey key) (h.index (CanonicalMIMEHeaderKey key) ++ [value])

/-- The method `Header.Set(key, value)` on a non-nil map:
`h[canonical key] = []string{value}`. -/
def Header.Set (h : Header) (key value : String) : Header :=
  h.assign (CanonicalMIMEHeaderKey key) [value]

/-- The fields of `http.Request` that the Director reads or writes, together with
the method. `URL` is a pointer and `Header` a map: both may be nil (`none`). -/
structure Request where
  Method : String
  URL : Option URL
  Proto : String
  ProtoMajor : Int
  ProtoMinor : Int
  Header : Option Header
  Host : String
  RequestURI : String

/-- The type `ResponseForwardingConfig`. `FlushInterval` is a `time.Duration`
(nanoseconds); the three capabilities are handles that the core only passes on,
`none` being the nil value. -/
structure ResponseForwardingConfig where
  Host : String
  FlushInterval : Int
  ResponseModifier : Option Nat
  BufferPool : Option Nat
  DefaultRoundTripper : Option Nat
  deriving DecidableEq, Repr

/-! ## Director -/

/-- The value of the Director's local `u`, a `*url.URL`: either the very pointer
`outReq.URL` (so that reads through `u` see the request's current URL), or the
fresh URL returned by `url.ParseRequestURI`. -/
inductive URLRef where
  | reqURL
  | parsed (p : URL)
  deriving DecidableEq, Repr

/-- Lines 43-49: `u := outReq.URL`, replaced by the parsed URL when `RequestURI`
is non-empty and `url.ParseRequestURI` returns no error. The parser is the
standard library's and is taken as a parameter (`none` is a non-nil `err`). -/
def effectiveURL (parseRequestURI : String → Option URL) (outReq : Request) : URLRef :=
  if outReq.RequestURI ≠ "" then
    match parseRequestURI outReq.RequestURI with
    | some parsedURL => .parsed parsedURL
    | none => .reqURL
  else .reqURL

/-- Dereference of `u` against the current request; `none` is a nil dereference. -/
def URLRef.deref (u : URLRef) (outReq : Request) : Option URL :=
  match u with
  | .reqURL => outReq.URL
  | .parsed p => some p

/-- The call `outReq.Header.Add(key, value)`; writing to a nil map panics. -/
def Request.headerAdd (outReq : Request) (key value : String) : Option Request :=
  match outReq.Header with
  | none => none
  | some h => some { outReq with Header := some (h.Add key value) }

/-- A field write `outReq.URL.f = ...` through the pointer `outReq.URL`; a nil
pointer panics. -/
def Request.updateURL (outReq : Request) (f : ProxyFatory.URL → ProxyFatory.URL) : Option Request :=
  match outReq.URL with
  | none => none
  | some url => some { outReq with URL := some (f url) }

/-- A read of the header map followed by a write to it (`h[k] = ...`, or
`Header.Set`); reading a nil map is allowed, writing to it panics. -/
def Request.updateHeader (outReq : Request) (f : ProxyFatory.Header → ProxyFatory.Header) : Option Request :=
  match outReq.Header with
  | none => none
  | some h => some { outReq with Header := some (f h) }

/-- The builtin `delete(outReq.Header, key)`; on a nil map it does nothing. -/
def Request.headerDelete (outReq : Request) (key : String) : Request :=
  match outReq.Header with
  | none => outReq
  | some h => { outReq with Header := some (h.delete key) }

/-- The closure `Director` of `buildProxy` (lines 42-79), statement by statement,
for the captured configuration `responseForwarding`. -/
def Director (responseForwarding : ResponseForwardingConfig)
    (parseRequestURI : String → Option URL) (outReq : Request) : Option Request := do
  let u := effectiveURL parseRequestURI outReq
  let originHost := responseForwarding.Host
  let outReq ← outReq.headerAdd "X-Forwarded-Host" outReq.Host
  let outReq ← outReq.headerAdd "X-Origin-Host" originHost
  let outReq := { outReq with Host := originHost }
  let outReq ← outReq.updateURL (fun url => { url with Host := originHost })
  let uPath := (← u.deref outReq).Path
  let outReq ← outReq.updateURL (fun url => { url with Path := uPath })
  let uRawPath := (← u.deref outReq).RawPath
  let outReq ← outReq.updateURL (fun url => { url with RawPath := uRawPath })
  let uRawQuery := (← u.deref outReq).RawQuery
  let outReq ← outReq.updateURL (fun url => { url with RawQuery := uRawQuery })
  let outReq := { outReq with RequestURI := "" }
  let outReq := { outReq with Proto := "HTTP/1.1" }
  let outReq := { outReq with ProtoMajor := 1 }
  let outReq := { outReq with ProtoMinor := 1 }
  let outReq ←
    if (outReq.Header.bind (fun h => h "User-Agent")).isNone then
      outReq.updateHeader (fun h => h.Set "User-Agent" "")
    else some outReq
  let outReq ← outReq.updateHeader (fun h =>
    h.assign "Sec-WebSocket-Key" (h.index "Sec-Websocket-Key"))
  let outReq := outReq.headerDelete "Sec-Websocket-Key"
  pure outReq

/-! ## Error handler -/

/-- The methods `Timeout()` and `Temporary()` of a value implementing `net.Error`. -/
structure NetMethods where
  Timeout : Bool
  Temporary : Bool
  deriving DecidableEq, Repr

/-- The error values the handler can receive. Go compares errors by identity, so the
package-level sentinels are constructors of their own and every other value, also
one with a sentinel's message or one wrapping a sentinel, is a different value.
`net` is `some m` exactly when the dynamic type implements `net.Error`. -/
inductive GoError where
  | EOF
  | ErrUnexpectedEOF
  | Canceled
  | value (msg : String) (net : Option NetMethods)
  | wrapping (msg : String) (net : Option NetMethods) (inner : GoError)
  deriving DecidableEq, Repr

/-- The method `Error()`. -/
def GoError.Error : GoError → String
  | .EOF => "EOF"
  | .ErrUnexpectedEOF => "unexpected EOF"
  | .Canceled => "context canceled"
  | .value msg _ => msg
  | .wrapping msg _ _ => msg

/-- The type assertion `err.(net.Error)`: the sentinels are `*errors.errorString`
values, which have no `Timeout` method. -/
def GoError.asNetError : GoError → Option NetMethods
  | .EOF => none
  | .ErrUnexpectedEOF => none
  | .Canceled => none
  | .value _ net => net
  | .wrapping _ net _ => net

/-- Modelled from the spec: the standard registry's reason phrases, Go's
`http.StatusText`, which is library code outside the repository. Only the entries
for the codes the handler can produce are listed (500, 502, 504); the library
returns the empty string for a code it does not know. -/
def httpStatusText (code : Int) : String :=
  if code = 500 then "Internal Server Error"
  else if code = 502 then "Bad Gateway"
  else if code = 504 then "Gateway Timeout"
  else ""

/-- The function `statusText` (lines 114-119). -/
def statusText (statusCode : Int) : String :=
  if statusCode = StatusClientClosedRequest then StatusClientClosedRequestText
  else httpStatusText statusCode

/-- The `switch` of `ErrorHandler` (lines 85-100): the value of `statusCode` when the
handler starts to write. -/
def errorStatusCode (err : GoError) : Int :=
  let statusCode := StatusInternalServerError
  if err = GoError.EOF then StatusBadGateway
  else if err = GoError.Canceled then StatusClientClosedRequest
  else
    match err.asNetError with
    | some e => if e.Timeout then StatusGatewayTimeout else StatusBadGateway
    | none => statusCode

/-- The calls the handler makes, in order. -/
inductive Event where
  | logPrintf (line : String)
  | WriteHeader (statusCode : Int)
  | Write (body : String)
  | logPrintln (line : String)
  deriving DecidableEq, Repr

/-- The closure `ErrorHandler` of `buildProxy` (lines 84-108) as the trace of its
calls. `write` is the response writer's `Write`, giving the returned error
(`none` is nil). -/
def ErrorHandler (write : String → Option GoError) (err : GoError) : List Event :=
  let statusCode := errorStatusCode err
  let line := "'" ++ toString statusCode ++ " " ++ statusText statusCode ++
    "' caused by: " ++ err.Error
  let pre := [Event.logPrintf line, Event.WriteHeader statusCode,
    Event.Write (statusText statusCode)]
  match write (statusText statusCode) with
  | some werr => pre ++ [Event.logPrintln ("Error while writing status code " ++ werr.Error)]
  | none => pre

/-- The status the client receives: the argument of the first `WriteHeader`. -/
def responseStatus : List Event → Option Int
  | [] => none
  | .WriteHeader c :: _ => some c
  | _ :: es => responseStatus es

/-- The body writes attempted, in order. -/
def responseBodies : List Event → List String
  | [] => []
  | .Write b :: es => b :: responseBodies es
  | _ :: es => responseBodies es

/-- The first-match-wins policy as the specification words it: end-of-stream
sentinel, then cancellation sentinel, then the timeout capability, then the rest. -/
def referencePolicy (err : GoError) : Int :=
  match err with
  | .EOF => 502
  | .Canceled => 499
  | e =>
    match e.asNetError with
    | some m => if m.Timeout = true then 504 else 502
    | none => 500

/-! ## buildProxy -/

/-- The constant `time.Millisecond`, a `time.Duration` in nanoseconds. -/
def Millisecond : Int := 1000000

/-- The fields of `httputil.ReverseProxy` that `buildProxy` sets. The two closures
are kept as functions (with the library parser and the response writer as their
extra arguments), the capabilities as the handles of the configuration. -/
structure ReverseProxy where
  Director : (String → Option URL) → Request → Option Request
  Transport : Option Nat
  FlushInterval : Int
  ModifyResponse : Option Nat
  BufferPool : Option Nat
  ErrorHandler : (String → Option GoError) → GoError → List Event

/-- The function `buildProxy` (lines 30-112) for a `*ResponseForwardingConfig` that
may be nil (`none`). The flush interval is computed under the nil guard of line 33;
the composite literal then reads `responseForwarding.DefaultRoundTripper` (line 80)
without a guard, and a nil dereference is a panic (`none`). -/
def buildProxy (responseForwarding : Option ResponseForwardingConfig) : Option ReverseProxy :=
  let flushInterval : Int := 0
  let flushInterval :=
    match responseForwarding with
    | some cfg => cfg.FlushInterval
    | none => flushInterval
  let flushInterval := if flushInterval = 0 then 100 * Millisecond else flushInterval
  match responseForwarding with
  | none => none
  | some cfg =>
    some { Director := Director cfg
           Transport := cfg.DefaultRoundTripper
           FlushInterval := flushInterval
           ModifyResponse := cfg.ResponseModifier
           BufferPool := cfg.BufferPool
           ErrorHandler := ErrorHandler }

/-- The part of the handler's trace that reaches the client: the calls on the
response writer, without the log lines. -/
def clientResponse : List Event → List Event
  | [] => []
  | .WriteHeader c :: es => .WriteHeader c :: clientResponse es
  | .Write b :: es => .Write b :: clientResponse es
  | _ :: es => clientResponse es

/-! ## Closed forms and observations -/

/-- The URL whose path fields the Director copies, for a request whose URL pointer
holds `url`: the parsed request-target when there is one, else `url` itself. -/
def pathSource (parseRequestURI : String → Option URL) (outReq : Request) (url : URL) : URL :=
  match effectiveURL parseRequestURI outReq with
  | .reqURL => url
  | .parsed p => p

/-- The header map the Director leaves, for inbound map `h` and inbound host `host0`:
the five header statements of the closure composed in source order. -/
def rewrittenHeader (responseForwarding : ResponseForwardingConfig) (host0 : String)
    (h : Header) : Header :=
  let h1 := (h.Add "X-Forwarded-Host" host0).Add "X-Origin-Host" responseForwarding.Host
  let h2 := if (h1 "User-Agent").isNone then h1.Set "User-Agent" "" else h1
  (h2.assign "Sec-WebSocket-Key" (h2.index "Sec-Websocket-Key")).delete "Sec-Websocket-Key"

/-- The binding of `key` in the header map of a Director result (`none` when the
Director panicked, the map is nil or the key is absent). -/
def headerAfter (res : Option Request) (key : String) : Option (List String) :=
  res.bind (fun out => out.Header.bind (fun h => h key))

/-! ## Sample inputs -/

/-- A configuration forwarding to `upstream.internal:8080`. -/
def sampleConfig : ResponseForwardingConfig :=
  { Host := "upstream.internal:8080", FlushInterval := 0, ResponseModifier := none,
    BufferPool := none, DefaultRoundTripper := some 0 }

/-- The URL `url.ParseRequestURI` returns for the request-target `/a%2Fb/../c?x=1`. -/
def sampleParsedURL : URL :=
  { Scheme := "", Opaque := "", User := none, Host := "", Path := "/a/b/../c",
    RawPath := "/a%2Fb/../c", ForceQuery := false, RawQuery := "x=1", Fragment := "" }

/-- A request-URI parser defined on two request-targets only, with the results
`url.ParseRequestURI` gives for them; every other string is rejected. -/
def sampleParse (s : String) : Option URL :=
  if s = "/a%2Fb/../c?x=1" then some sampleParsedURL
  else if s = "/ws" then
    some { Scheme := "", Opaque := "", User := none, Host := "", Path := "/ws",
           RawPath := "", ForceQuery := false, RawQuery := "", Fragment := "" }
  else none

/-- A pre-parsed URL that intermediate processing has cleaned (`/c`, no query). -/
def sampleURL : URL :=
  { Scheme := "", Opaque := "", User := none, Host := "", Path := "/c",
    RawPath := "", ForceQuery := false, RawQuery := "", Fragment := "" }

/-- Inbound headers of a second hop: both provenance headers already present, a
miscapitalized WebSocket key with two values, no User-Agent. -/
def sampleHeader : Header :=
  ((Header.empty.assign "X-Forwarded-Host" ["first.example"]).assign
    "X-Origin-Host" ["edge.internal"]).assign "Sec-Websocket-Key" ["k1", "k2"]

/-- An HTTP/2 request for `client.example` with a literal request-target. -/
def sampleRequest : Request :=
  { Method := "GET", URL := some sampleURL, Proto := "HTTP/2.0", ProtoMajor := 2,
    ProtoMinor := 0, Header := some sampleHeader, Host := "client.example",
    RequestURI := "/a%2Fb/../c?x=1" }

/-- The same request with a request-target the parser rejects. -/
def sampleRequestBadURI : Request :=
  { sampleRequest with RequestURI := "no-leading-slash" }

/-- Inbound headers with an explicit User-Agent and nothing else. -/
def sampleHeaderUA : Header :=
  Header.empty.assign "User-Agent" ["foo"]

/-- A first-hop request: no provenance headers, explicit User-Agent. -/
def sampleRequestUA : Request :=
  { sampleRequest with Header := some sampleHeaderUA }

/-- A WebSocket request as a first Director run leaves it: the key under its
case-sensitive name, no miscapitalized key, no request-target. -/
def sampleSecondHopHeader : Header :=
  (Header.empty.assign "Sec-WebSocket-Key" ["k1", "k2"]).assign "X-Trace" ["t1"]

/-- A second-hop request carrying `sampleSecondHopHeader`. -/
def sampleSecondHopRequest : Request :=
  { sampleRequest with Header := some sampleSecondHopHeader, RequestURI := "" }

/-- A second configuration, forwarding to `next.internal:9090` and flushing on
every write. -/
def sampleConfig2 : ResponseForwardingConfig :=
  { Host := "next.internal:9090", FlushInterval := -1, ResponseModifier := none,
    BufferPool := none, DefaultRoundTripper := some 1 }

/-- A configuration with a periodic flush of 250ms. -/
def sampleConfig3 : ResponseForwardingConfig :=
  { sampleConfig with FlushInterval := 250 * Millisecond }

/-- A network error without timeout, as a refused dial gives. -/
def sampleDialError : GoError :=
  GoError.value "dial tcp 10.0.0.7:8080: connect: connection refused"
    (some { Timeout := false, Temporary := false })

/-- A response writer whose `Write` always fails (the client is gone). -/
def sampleBrokenWrite : String → Option GoError :=
  fun _ => some (GoError.value "write: broken pipe" none)

/-! ## Lemmas -/

theorem canonical_forwarded : CanonicalMIMEHeaderKey "X-Forwarded-Host" = "X-Forwarded-Host" := by
  decide

theorem canonical_origin : CanonicalMIMEHeaderKey "X-Origin-Host" = "X-Origin-Host" := by
  decide

theorem canonical_user_agent : CanonicalMIMEHeaderKey "User-Agent" = "User-Agent" := by
  decide

/-- On a request with non-nil URL and header map the Director returns, and its
result is the closed form. -/
theorem Director_closed_form (cfg : ResponseForwardingConfig)
    (parse : String → Option URL) (r : Request) (url : URL) (h : Header)
    (hU : r.URL = some url) (hH : r.Header = some h) :
    Director cfg parse r = some
      { Method := r.Method
        URL := some { url with
          Host := cfg.Host
          Path := (pathSource parse r url).Path
          RawPath := (pathSource parse r url).RawPath
          RawQuery := (pathSource parse r url).RawQuery }
        Proto := "HTTP/1.1"
        ProtoMajor := 1
        ProtoMinor := 1
        Header := some (rewrittenHeader cfg r.Host h)
        Host := cfg.Host
        RequestURI := "" } := by
  cases hu : effectiveURL parse r <;>
    simp [Director, Request.headerAdd, Request.updateURL, Request.updateHeader,
      Request.headerDelete, URLRef.deref, pathSource, rewrittenHeader, hU, hH, hu] <;>
    split <;> simp_all

theorem rewrittenHeader_forwarded (cfg : ResponseForwardingConfig) (host0 : String)
    (h : Header) :
    rewrittenHeader cfg host0 h "X-Forwarded-Host" =
      some (h.index "X-Forwarded-Host" ++ [host0]) := by
  simp only [rewrittenHeader, Header.Add, Header.Set, canonical_forwarded, canonical_origin,
    canonical_user_agent]
  split <;> simp [Header.assign, Header.delete, Header.index]

theorem rewrittenHeader_origin (cfg : ResponseForwardingConfig) (host0 : String)
    (h : Header) :
    rewrittenHeader cfg host0 h "X-Origin-Host" =
      some (h.index "X-Origin-Host" ++ [cfg.Host]) := by
  simp only [rewrittenHeader, Header.Add, Header.Set, canonical_forwarded, canonical_origin,
    canonical_user_agent]
  split <;> simp [Header.assign, Header.delete, Header.index]

theorem rewrittenHeader_user_agent (cfg : ResponseForwardingConfig) (host0 : String)
    (h : Header) :
    rewrittenHeader cfg host0 h "User-Agent" = some ((h "User-Agent").getD [""]) := by
  simp only [rewrittenHeader, Header.Add, Header.Set, canonical_forwarded, canonical_origin,
    canonical_user_agent]
  cases hua : h "User-Agent" <;> simp [Header.assign, Header.delete, Header.index, hua]

theorem rewrittenHeader_websocket (cfg : ResponseForwardingConfig) (host0 : String)
    (h : Header) :
    rewrittenHeader cfg host0 h "Sec-WebSocket-Key" = some (h.index "Sec-Websocket-Key") := by
  simp only [rewrittenHeader, Header.Add, Header.Set, canonical_forwarded, canonical_origin,
    canonical_user_agent]
  split <;> simp [Header.assign, Header.delete, Header.index]

theorem rewrittenHeader_miscapitalized (cfg : ResponseForwardingConfig) (host0 : String)
    (h : Header) :
    rewrittenHeader cfg host0 h "Sec-Websocket-Key" = none := by
  simp [rewrittenHeader, Header.delete]

/-- On a request with non-nil URL and header map the Director returns a request
whose header map is `rewrittenHeader`. -/
theorem Director_header (cfg : ResponseForwardingConfig) (parse : String → Option URL)
    (r : Request) (url : URL) (h : Header) (hU : r.URL = some url)
    (hH : r.Header = some h) :
    ∃ out, Director cfg parse r = some out ∧
      out.Header = some (rewrittenHeader cfg r.Host h) :=
  ⟨_, Director_closed_form cfg parse r url h hU hH, rfl⟩

/-! ## Director: host, request-URI and protocol -/

/-- C1: for every inbound request with non-nil URL and header map and every
configuration, the Director returns a request whose Host and URL.Host are the
configured target host, whose RequestURI is empty and whose protocol is
"HTTP/1.1" with ProtoMajor 1 and ProtoMinor 1, whatever the inbound values were. -/
theorem C1_director_host_requestURI_protocol (cfg : ResponseForwardingConfig)
    (parse : String → Option URL) (r : Request) (url : URL) (h : Header)
    (hU : r.URL = some url) (hH : r.Header = some h) :
    ∃ out outURL, Director cfg parse r = some out ∧ out.URL = some outURL ∧
      out.Host = cfg.Host ∧ outURL.Host = cfg.Host ∧ out.RequestURI = "" ∧
      out.Proto = "HTTP/1.1" ∧ out.ProtoMajor = 1 ∧ out.ProtoMinor = 1 :=
  ⟨_, _, Director_closed_form cfg parse r url h hU hH, rfl, rfl, rfl, rfl, rfl, rfl, rfl⟩

/-- C1 at the sample HTTP/2 request for `client.example`. -/
theorem C1_director_host_requestURI_protocol_witness :
    sampleRequest.URL = some sampleURL ∧ sampleRequest.Header = some sampleHeader ∧
    ∃ out outURL, Director sampleConfig sampleParse sampleRequest = some out ∧
      out.URL = some outURL ∧
      out.Host = "upstream.internal:8080" ∧ outURL.Host = "upstream.internal:8080" ∧
      out.RequestURI = "" ∧ out.Proto = "HTTP/1.1" ∧ out.ProtoMajor = 1 ∧
      out.ProtoMinor = 1 :=
  ⟨rfl, rfl, C1_director_host_requestURI_protocol sampleConfig sampleParse sampleRequest
    sampleURL sampleHeader rfl rfl⟩

/-! ## Director: path and query -/

/-- C2: when RequestURI is non-empty and the request-URI parser accepts it with
result `u`, the outbound URL's Path, RawPath and RawQuery are those of `u`, for
every value `url` of the request's pre-parsed URL. -/
theorem C2_director_path_from_request_target (cfg : ResponseForwardingConfig)
    (parse : String → Option URL) (r : Request) (url u : URL) (h : Header)
    (hU : r.URL = some url) (hH : r.Header = some h)
    (hne : r.RequestURI ≠ "") (hp : parse r.RequestURI = some u) :
    ∃ out outURL, Director cfg parse r = some out ∧ out.URL = some outURL ∧
      outURL.Path = u.Path ∧ outURL.RawPath = u.RawPath ∧
      outURL.RawQuery = u.RawQuery := by
  have hs : pathSource parse r url = u := by
    simp [pathSource, effectiveURL, hne, hp]
  refine ⟨_, _, Director_closed_form cfg parse r url h hU hH, rfl, ?_, ?_, ?_⟩ <;>
    simp [hs]

/-- C2 at the sample request: the pre-parsed URL says `/c` with no query, the
request-target says `/a%2Fb/../c?x=1`. -/
theorem C2_director_path_from_request_target_witness :
    sampleURL.Path = "/c" ∧ sampleRequest.RequestURI ≠ "" ∧
    ∃ out outURL, Director sampleConfig sampleParse sampleRequest = some out ∧
      out.URL = some outURL ∧ outURL.Path = "/a/b/../c" ∧
      outURL.RawPath = "/a%2Fb/../c" ∧ outURL.RawQuery = "x=1" :=
  ⟨rfl, by decide, C2_director_path_from_request_target sampleConfig sampleParse sampleRequest
    sampleURL sampleParsedURL sampleHeader rfl rfl (by decide) (by decide)⟩

/-- C3: when RequestURI is empty, or non-empty but rejected by the parser, the
Director still returns: Path, RawPath and RawQuery are those the request's URL
carried, and the other rewrites are performed (host, cleared RequestURI, HTTP/1.1,
the provenance headers, User-Agent and the WebSocket key). -/
theorem C3_director_fallback_on_unparsed_target (cfg : ResponseForwardingConfig)
    (parse : String → Option URL) (r : Request) (url : URL) (h : Header)
    (hU : r.URL = some url) (hH : r.Header = some h)
    (hfail : r.RequestURI = "" ∨ (r.RequestURI ≠ "" ∧ parse r.RequestURI = none)) :
    ∃ out outURL outHeader, Director cfg parse r = some out ∧ out.URL = some outURL ∧
      out.Header = some outHeader ∧
      outURL.Path = url.Path ∧ outURL.RawPath = url.RawPath ∧
      outURL.RawQuery = url.RawQuery ∧
      out.Host = cfg.Host ∧ outURL.Host = cfg.Host ∧ out.RequestURI = "" ∧
      out.Proto = "HTTP/1.1" ∧ out.ProtoMajor = 1 ∧ out.ProtoMinor = 1 ∧
      outHeader "X-Forwarded-Host" = some (h.index "X-Forwarded-Host" ++ [r.Host]) ∧
      outHeader "X-Origin-Host" = some (h.index "X-Origin-Host" ++ [cfg.Host]) ∧
      outHeader "User-Agent" = some ((h "User-Agent").getD [""]) ∧
      outHeader "Sec-WebSocket-Key" = some (h.index "Sec-Websocket-Key") ∧
      outHeader "Sec-Websocket-Key" = none := by
  have hs : pathSource parse r url = url := by
    rcases hfail with he | ⟨hne, hp⟩
    · simp [pathSource, effectiveURL, he]
    · simp [pathSource, effectiveURL, hne, hp]
  refine ⟨_, _, _, Director_closed_form cfg parse r url h hU hH, rfl, rfl, ?_, ?_, ?_,
    rfl, rfl, rfl, rfl, rfl, rfl, rewrittenHeader_forwarded cfg r.Host h,
    rewrittenHeader_origin cfg r.Host h, rewrittenHeader_user_agent cfg r.Host h,
    rewrittenHeader_websocket cfg r.Host h, rewrittenHeader_miscapitalized cfg r.Host h⟩ <;>
    simp [hs]

/-- C3 at the sample request with a request-target the parser rejects. -/
theorem C3_director_fallback_on_unparsed_target_witness :
    sampleParse sampleRequestBadURI.RequestURI = none ∧
    ∃ out outURL outHeader, Director sampleConfig sampleParse sampleRequestBadURI = some out ∧
      out.URL = some outURL ∧ out.Header = some outHeader ∧
      outURL.Path = "/c" ∧ outURL.RawPath = "" ∧ outURL.RawQuery = "" ∧
      out.Host = "upstream.internal:8080" ∧ outURL.Host = "upstream.internal:8080" ∧
      out.RequestURI = "" ∧ out.Proto = "HTTP/1.1" ∧ out.ProtoMajor = 1 ∧
      out.ProtoMinor = 1 ∧
      outHeader "X-Forwarded-Host" =
        some (sampleHeader.index "X-Forwarded-Host" ++ ["client.example"]) ∧
      outHeader "X-Origin-Host" =
        some (sampleHeader.index "X-Origin-Host" ++ ["upstream.internal:8080"]) ∧
      outHeader "User-Agent" = some ((sampleHeader "User-Agent").getD [""]) ∧
      outHeader "Sec-WebSocket-Key" = some (sampleHeader.index "Sec-Websocket-Key") ∧
      outHeader "Sec-Websocket-Key" = none :=
  ⟨by decide, C3_director_fallback_on_unparsed_target sampleConfig sampleParse
    sampleRequestBadURI sampleURL sampleHeader rfl rfl (Or.inr ⟨by decide, by decide⟩)⟩

/-! ## Director: provenance headers -/

/-- C4: when the inbound X-Forwarded-Host value list is `vs` (empty when the key
is absent) and the inbound Host is `r.Host`, the Director returns a request whose
X-Forwarded-Host value list is `vs` followed by `r.Host`, the inbound host and
not the configured one. -/
theorem C4_director_appends_forwarded_host (cfg : ResponseForwardingConfig)
    (parse : String → Option URL) (r : Request) (url : URL) (h : Header)
    (vs : List String)
    (hU : r.URL = some url) (hH : r.Header = some h)
    (hvs : h.index "X-Forwarded-Host" = vs) :
    ∃ out outHeader, Director cfg parse r = some out ∧ out.Header = some outHeader ∧
      outHeader "X-Forwarded-Host" = some (vs ++ [r.Host]) := by
  obtain ⟨out, hout, hhdr⟩ := Director_header cfg parse r url h hU hH
  exact ⟨out, _, hout, hhdr, by rw [rewrittenHeader_forwarded, hvs]⟩

/-- C4 at the sample second-hop request: `first.example` is kept and the inbound
host `client.example` is appended. -/
theorem C4_director_appends_forwarded_host_witness :
    sampleHeader.index "X-Forwarded-Host" = ["first.example"] ∧
    ∃ out outHeader, Director sampleConfig sampleParse sampleRequest = some out ∧
      out.Header = some outHeader ∧
      outHeader "X-Forwarded-Host" = some ["first.example", "client.example"] :=
  ⟨by decide, C4_director_appends_forwarded_host sampleConfig sampleParse sampleRequest
    sampleURL sampleHeader ["first.example"] rfl rfl (by decide)⟩

/-- C5, as stated, fails: the sample request already carries X-Origin-Host
`edge.internal`, and after the Director the value list holds two values, not the
single configured host. -/
theorem C5_origin_host_not_single_value :
    sampleHeader "X-Origin-Host" = some ["edge.internal"] ∧
    headerAfter (Director sampleConfig sampleParse sampleRequest) "X-Origin-Host" =
      some ["edge.internal", "upstream.internal:8080"] ∧
    headerAfter (Director sampleConfig sampleParse sampleRequest) "X-Origin-Host" ≠
      some [sampleConfig.Host] := by
  have hd := Director_closed_form sampleConfig sampleParse sampleRequest sampleURL
    sampleHeader rfl rfl
  have ho := rewrittenHeader_origin sampleConfig sampleRequest.Host sampleHeader
  have hi : sampleHeader.index "X-Origin-Host" = ["edge.internal"] := by decide
  refine ⟨by decide, ?_, ?_⟩
  · rw [hd]
    simp only [headerAfter, Option.bind]
    rw [ho, hi]
    rfl
  · rw [hd]
    simp only [headerAfter, Option.bind]
    rw [ho, hi]
    decide

/-- C5, amended: the Director adds the configured target host to X-Origin-Host,
so the value list is the inbound list followed by `cfg.Host`; it is the single
value `cfg.Host` when the inbound request carries no X-Origin-Host value. -/
theorem C5_director_adds_origin_host (cfg : ResponseForwardingConfig)
    (parse : String → Option URL) (r : Request) (url : URL) (h : Header)
    (hU : r.URL = some url) (hH : r.Header = some h) :
    ∃ out outHeader, Director cfg parse r = some out ∧ out.Header = some outHeader ∧
      outHeader "X-Origin-Host" = some (h.index "X-Origin-Host" ++ [cfg.Host]) ∧
      (h.index "X-Origin-Host" = [] → outHeader "X-Origin-Host" = some [cfg.Host]) := by
  obtain ⟨out, hout, hhdr⟩ := Director_header cfg parse r url h hU hH
  refine ⟨out, _, hout, hhdr, rewrittenHeader_origin cfg r.Host h, ?_⟩
  intro hnil
  rw [rewrittenHeader_origin, hnil]
  rfl

/-- C5 amended, at the first-hop sample request, which has no X-Origin-Host. -/
theorem C5_director_adds_origin_host_witness :
    sampleHeaderUA "X-Origin-Host" = none ∧
    ∃ out outHeader, Director sampleConfig sampleParse sampleRequestUA = some out ∧
      out.Header = some outHeader ∧
      outHeader "X-Origin-Host" = some ["upstream.internal:8080"] := by
  obtain ⟨out, outHeader, hout, hhdr, _, hsingle⟩ :=
    C5_director_adds_origin_host sampleConfig sampleParse sampleRequestUA
      sampleURL sampleHeaderUA rfl rfl
  exact ⟨by decide, out, outHeader, hout, hhdr, hsingle (by decide)⟩

/-! ## Director: WebSocket key and User-Agent -/

/-- C6: when the inbound header map binds Sec-Websocket-Key to `ks`, the Director
returns a request in which Sec-WebSocket-Key is bound to the whole list `ks`, in
order, and Sec-Websocket-Key is absent. -/
theorem C6_director_websocket_key_case_fix (cfg : ResponseForwardingConfig)
    (parse : String → Option URL) (r : Request) (url : URL) (h : Header)
    (ks : List String)
    (hU : r.URL = some url) (hH : r.Header = some h)
    (hks : h "Sec-Websocket-Key" = some ks) :
    ∃ out outHeader, Director cfg parse r = some out ∧ out.Header = some outHeader ∧
      outHeader "Sec-WebSocket-Key" = some ks ∧ outHeader "Sec-Websocket-Key" = none := by
  obtain ⟨out, hout, hhdr⟩ := Director_header cfg parse r url h hU hH
  refine ⟨out, _, hout, hhdr, ?_, rewrittenHeader_miscapitalized cfg r.Host h⟩
  rw [rewrittenHeader_websocket]
  simp [Header.index, hks]

/-- C6 at the sample request, whose miscapitalized key has the two values
`k1`, `k2`. -/
theorem C6_director_websocket_key_case_fix_witness :
    sampleHeader "Sec-Websocket-Key" = some ["k1", "k2"] ∧
    ∃ out outHeader, Director sampleConfig sampleParse sampleRequest = some out ∧
      out.Header = some outHeader ∧
      outHeader "Sec-WebSocket-Key" = some ["k1", "k2"] ∧
      outHeader "Sec-Websocket-Key" = none :=
  ⟨by decide, C6_director_websocket_key_case_fix sampleConfig sampleParse sampleRequest
    sampleURL sampleHeader ["k1", "k2"] rfl rfl (by decide)⟩

/-- C7: when the inbound header map has no User-Agent key the Director returns a
request whose User-Agent is present with the single value ""; when the key is
present with value list `vs` (whatever it is, also `[""]`), the value list is
still `vs`. -/
theorem C7_director_user_agent (cfg : ResponseForwardingConfig)
    (parse : String → Option URL) (r : Request) (url : URL) (h : Header)
    (hU : r.URL = some url) (hH : r.Header = some h) :
    ∃ out outHeader, Director cfg parse r = some out ∧ out.Header = some outHeader ∧
      (h "User-Agent" = none → outHeader "User-Agent" = some [""]) ∧
      (∀ vs, h "User-Agent" = some vs → outHeader "User-Agent" = some vs) := by
  obtain ⟨out, hout, hhdr⟩ := Director_header cfg parse r url h hU hH
  refine ⟨out, _, hout, hhdr, ?_, ?_⟩
  · intro hnone
    rw [rewrittenHeader_user_agent, hnone]
    rfl
  · intro vs hsome
    rw [rewrittenHeader_user_agent, hsome]
    rfl

/-- C7 at the sample request without User-Agent, and at the sample request with
`User-Agent: foo`. -/
theorem C7_director_user_agent_witness :
    sampleHeader "User-Agent" = none ∧
    (∃ out outHeader, Director sampleConfig sampleParse sampleRequest = some out ∧
      out.Header = some outHeader ∧ outHeader "User-Agent" = some [""]) ∧
    sampleHeaderUA "User-Agent" = some ["foo"] ∧
    (∃ out outHeader, Director sampleConfig sampleParse sampleRequestUA = some out ∧
      out.Header = some outHeader ∧ outHeader "User-Agent" = some ["foo"]) := by
  obtain ⟨out, outHeader, hout, hhdr, habsent, _⟩ :=
    C7_director_user_agent sampleConfig sampleParse sampleRequest
      sampleURL sampleHeader rfl rfl
  obtain ⟨out2, outHeader2, hout2, hhdr2, _, hpresent⟩ :=
    C7_director_user_agent sampleConfig sampleParse sampleRequestUA
      sampleURL sampleHeaderUA rfl rfl
  exact ⟨by decide, ⟨out, outHeader, hout, hhdr, habsent (by decide)⟩, by decide,
    ⟨out2, outHeader2, hout2, hhdr2, hpresent ["foo"] (by decide)⟩⟩

/-! ## Error handler -/

theorem errorStatusCode_eq_referencePolicy (err : GoError) :
    errorStatusCode err = referencePolicy err := by
  cases err <;>
    simp [errorStatusCode, referencePolicy, GoError.asNetError, StatusBadGateway,
      StatusClientClosedRequest, StatusGatewayTimeout, StatusInternalServerError]

theorem responseStatus_ErrorHandler (write : String → Option GoError) (err : GoError) :
    responseStatus (ErrorHandler write err) = some (errorStatusCode err) := by
  simp only [ErrorHandler]
  split <;> simp [responseStatus]

theorem responseBodies_ErrorHandler (write : String → Option GoError) (err : GoError) :
    responseBodies (ErrorHandler write err) = [statusText (errorStatusCode err)] := by
  simp only [ErrorHandler]
  split <;> simp [responseBodies]

theorem errorStatusCode_eq_499_iff (err : GoError) :
    errorStatusCode err = 499 ↔ err = GoError.Canceled := by
  cases err with
  | EOF => simp [errorStatusCode, StatusBadGateway]
  | ErrUnexpectedEOF =>
    simp [errorStatusCode, GoError.asNetError, StatusInternalServerError]
  | Canceled => simp [errorStatusCode, StatusClientClosedRequest]
  | value msg net =>
    cases net with
    | none => simp [errorStatusCode, GoError.asNetError, StatusInternalServerError]
    | some m =>
      cases hm : m.Timeout <;>
        simp [errorStatusCode, GoError.asNetError, StatusGatewayTimeout, StatusBadGateway, hm]
  | wrapping msg net inner =>
    cases net with
    | none => simp [errorStatusCode, GoError.asNetError, StatusInternalServerError]
    | some m =>
      cases hm : m.Timeout <;>
        simp [errorStatusCode, GoError.asNetError, StatusGatewayTimeout, StatusBadGateway, hm]

theorem errorStatusCode_cases (err : GoError) :
    errorStatusCode err = 499 ∨ errorStatusCode err = 500 ∨ errorStatusCode err = 502 ∨
      errorStatusCode err = 504 := by
  rw [errorStatusCode_eq_referencePolicy]
  unfold referencePolicy
  split
  · simp
  · simp
  · split
    · split <;> simp
    · simp

theorem statusText_eq_closed_iff (err : GoError) :
    statusText (errorStatusCode err) = "Client Closed Request" ↔
      errorStatusCode err = 499 := by
  rcases errorStatusCode_cases err with h | h | h | h <;> rw [h] <;> decide

/-- C8: for every transport error the status code the handler chooses, and writes
with WriteHeader, is the one the first-match-wins reference policy gives: io.EOF
502, context.Canceled 499, a net.Error 504 when Timeout() is true and 502 when
false, any other error 500. -/
theorem C8_error_status_follows_reference_policy (write : String → Option GoError)
    (err : GoError) :
    errorStatusCode err = referencePolicy err ∧
    responseStatus (ErrorHandler write err) = some (referencePolicy err) := by
  refine ⟨errorStatusCode_eq_referencePolicy err, ?_⟩
  rw [responseStatus_ErrorHandler, errorStatusCode_eq_referencePolicy]

/-- C9: the handler produces status 499 exactly when the error is the sentinel
context.Canceled, and exactly then the body it writes is the literal
"Client Closed Request"; an error wrapping the sentinel, an error with the
sentinel's message, and any error implementing net.Error never give 499. -/
theorem C9_status_499_iff_canceled (write : String → Option GoError) (err : GoError) :
    (errorStatusCode err = 499 ↔ err = GoError.Canceled) ∧
    (responseStatus (ErrorHandler write err) = some 499 ↔ err = GoError.Canceled) ∧
    (responseBodies (ErrorHandler write err) = ["Client Closed Request"] ↔
      err = GoError.Canceled) ∧
    (∀ msg net, errorStatusCode (GoError.wrapping msg net GoError.Canceled) ≠ 499) ∧
    (∀ net, errorStatusCode (GoError.value "context canceled" net) ≠ 499) ∧
    (∀ e m, e.asNetError = some m → errorStatusCode e ≠ 499) := by
  refine ⟨errorStatusCode_eq_499_iff err, ?_, ?_, ?_, ?_, ?_⟩
  · rw [responseStatus_ErrorHandler]
    simp [errorStatusCode_eq_499_iff]
  · rw [responseBodies_ErrorHandler]
    simp [statusText_eq_closed_iff, errorStatusCode_eq_499_iff]
  · intro msg net h
    have := (errorStatusCode_eq_499_iff _).mp h
    cases this
  · intro net h
    have := (errorStatusCode_eq_499_iff _).mp h
    cases this
  · intro e m hm h
    have := (errorStatusCode_eq_499_iff _).mp h
    subst this
    simp [GoError.asNetError] at hm

/-- C10, as stated, fails: for io.ErrUnexpectedEOF the handler chooses and writes
500, not 502, with body "Internal Server Error". -/
theorem C10_unexpected_eof_gives_500 :
    GoError.ErrUnexpectedEOF.Error = "unexpected EOF" ∧
    errorStatusCode GoError.ErrUnexpectedEOF = 500 ∧
    errorStatusCode GoError.ErrUnexpectedEOF ≠ 502 ∧
    ErrorHandler (fun _ => none) GoError.ErrUnexpectedEOF =
      [Event.logPrintf "'500 Internal Server Error' caused by: unexpected EOF",
       Event.WriteHeader 500, Event.Write "Internal Server Error"] := by
  decide

/-- C10, amended: when the transport error is the end-of-stream sentinel io.EOF
(message "EOF") the handler yields 502 Bad Gateway, for every response writer. -/
theorem C10_eof_gives_502 (write : String → Option GoError) :
    GoError.EOF.Error = "EOF" ∧
    errorStatusCode GoError.EOF = 502 ∧
    responseStatus (ErrorHandler write GoError.EOF) = some 502 ∧
    responseBodies (ErrorHandler write GoError.EOF) = ["Bad Gateway"] := by
  refine ⟨rfl, by decide, ?_, ?_⟩
  · rw [responseStatus_ErrorHandler]; decide
  · rw [responseBodies_ErrorHandler]; decide

/-! ## Error handler: the response written -/

theorem clientResponse_ErrorHandler (write : String → Option GoError) (err : GoError) :
    clientResponse (ErrorHandler write err) =
      [Event.WriteHeader (errorStatusCode err),
       Event.Write (statusText (errorStatusCode err))] := by
  simp only [ErrorHandler]
  split <;> simp [clientResponse]

theorem statusText_errorStatusCode_ne_empty (err : GoError) :
    statusText (errorStatusCode err) ≠ "" := by
  rcases errorStatusCode_cases err with h | h | h | h <;> rw [h] <;> decide

/-- C11: for every transport error with classified code `c` the handler calls
WriteHeader with `c` and then Write once, with the bytes of `statusText c`;
`statusText 499` is "Client Closed Request" and the other codes have the registry
phrase, so the body is not empty. When that Write fails the handler still
finishes: the trace is the same three calls followed by one log line, with no
second Write. -/
theorem C11_handler_writes_status_then_text (write : String → Option GoError)
    (err : GoError) :
    clientResponse (ErrorHandler write err) =
      [Event.WriteHeader (errorStatusCode err),
       Event.Write (statusText (errorStatusCode err))] ∧
    responseBodies (ErrorHandler write err) = [statusText (errorStatusCode err)] ∧
    statusText (errorStatusCode err) ≠ "" ∧
    statusText 499 = "Client Closed Request" ∧
    (∀ c, c ≠ 499 → statusText c = httpStatusText c) ∧
    statusText 500 = "Internal Server Error" ∧ statusText 502 = "Bad Gateway" ∧
    statusText 504 = "Gateway Timeout" ∧
    (∀ werr, write (statusText (errorStatusCode err)) = some werr →
      ErrorHandler write err =
        [Event.logPrintf ("'" ++ toString (errorStatusCode err) ++ " " ++
          statusText (errorStatusCode err) ++ "' caused by: " ++ err.Error),
         Event.WriteHeader (errorStatusCode err),
         Event.Write (statusText (errorStatusCode err)),
         Event.logPrintln ("Error while writing status code " ++ werr.Error)]) ∧
    (write (statusText (errorStatusCode err)) = none →
      ErrorHandler write err =
        [Event.logPrintf ("'" ++ toString (errorStatusCode err) ++ " " ++
          statusText (errorStatusCode err) ++ "' caused by: " ++ err.Error),
         Event.WriteHeader (errorStatusCode err),
         Event.Write (statusText (errorStatusCode err))]) := by
  refine ⟨clientResponse_ErrorHandler write err, responseBodies_ErrorHandler write err,
    statusText_errorStatusCode_ne_empty err, by decide, ?_, by decide, by decide,
    by decide, ?_, ?_⟩
  · intro c hc
    simp [statusText, StatusClientClosedRequest, hc]
  · intro werr hw
    simp only [ErrorHandler, hw]
    rfl
  · intro hw
    simp only [ErrorHandler, hw]

/-- C12: two transport errors with the same status code get the same response,
status and body bytes, whatever their messages and whatever the writers do; the
response is `WriteHeader c` followed by `Write (statusText c)` for the code `c`
alone. -/
theorem C12_response_depends_on_status_only (write1 write2 : String → Option GoError)
    (err1 err2 : GoError) (hsame : errorStatusCode err1 = errorStatusCode err2) :
    clientResponse (ErrorHandler write1 err1) = clientResponse (ErrorHandler write2 err2) ∧
    responseStatus (ErrorHandler write1 err1) = responseStatus (ErrorHandler write2 err2) ∧
    responseBodies (ErrorHandler write1 err1) = responseBodies (ErrorHandler write2 err2) ∧
    clientResponse (ErrorHandler write1 err1) =
      [Event.WriteHeader (errorStatusCode err1),
       Event.Write (statusText (errorStatusCode err1))] := by
  refine ⟨?_, ?_, ?_, clientResponse_ErrorHandler write1 err1⟩
  · rw [clientResponse_ErrorHandler, clientResponse_ErrorHandler, hsame]
  · rw [responseStatus_ErrorHandler, responseStatus_ErrorHandler, hsame]
  · rw [responseBodies_ErrorHandler, responseBodies_ErrorHandler, hsame]

/-- C12 at io.EOF and a refused dial, both classified 502, the second with a
writer that fails: the messages differ, the responses do not. -/
theorem C12_response_depends_on_status_only_witness :
    GoError.EOF.Error ≠ sampleDialError.Error ∧
    errorStatusCode GoError.EOF = errorStatusCode sampleDialError ∧
    clientResponse (ErrorHandler (fun _ => none) GoError.EOF) =
      clientResponse (ErrorHandler sampleBrokenWrite sampleDialError) ∧
    clientResponse (ErrorHandler (fun _ => none) GoError.EOF) =
      [Event.WriteHeader 502, Event.Write "Bad Gateway"] := by
  obtain ⟨h1, _, _, h4⟩ :=
    C12_response_depends_on_status_only (fun _ => none) sampleBrokenWrite GoError.EOF
      sampleDialError (by decide)
  exact ⟨by decide, by decide, h1, h4⟩

/-! ## buildProxy: flush interval and nil configuration -/

theorem buildProxy_some (cfg : ResponseForwardingConfig) :
    buildProxy (some cfg) = some
      { Director := Director cfg
        Transport := cfg.DefaultRoundTripper
        FlushInterval := if cfg.FlushInterval = 0 then 100 * Millisecond else cfg.FlushInterval
        ModifyResponse := cfg.ResponseModifier
        BufferPool := cfg.BufferPool
        ErrorHandler := ErrorHandler } := by
  simp [buildProxy]

theorem buildProxy_flush_ne_zero (c : Option ResponseForwardingConfig) (p : ReverseProxy)
    (hp : buildProxy c = some p) : p.FlushInterval ≠ 0 := by
  cases c with
  | none => simp [buildProxy] at hp
  | some cfg =>
    rw [buildProxy_some] at hp
    cases hp
    by_cases h0 : cfg.FlushInterval = 0
    · simp [h0, Millisecond]
    · simp [h0]

/-- C13: for every configuration buildProxy returns a proxy; its flush interval
is 100 milliseconds (100000000 ns) when the configured FlushInterval is zero, and
the configured value, positive or negative, when it is not. -/
theorem C13_flush_interval_default (cfg : ResponseForwardingConfig) :
    ∃ p, buildProxy (some cfg) = some p ∧
      (cfg.FlushInterval = 0 → p.FlushInterval = 100 * Millisecond) ∧
      (cfg.FlushInterval ≠ 0 → p.FlushInterval = cfg.FlushInterval) ∧
      100 * Millisecond = 100000000 := by
  refine ⟨_, buildProxy_some cfg, ?_, ?_, by decide⟩
  · intro h0
    simp [h0]
  · intro h0
    simp [h0]

/-- C14, as stated, fails: no configuration, nil included, makes buildProxy return
a proxy with the zero flush interval. -/
theorem C14_zero_interval_unreachable :
    ¬ ∃ (c : Option ResponseForwardingConfig) (p : ReverseProxy),
      buildProxy c = some p ∧ p.FlushInterval = 0 := by
  rintro ⟨c, p, hp, h0⟩
  exact buildProxy_flush_ne_zero c p hp h0

/-- C14, amended: through buildProxy a positive interval (periodic flush) is
reached, also from the zero configuration, which gives the 100ms default, and a
negative interval (flush on every write) is reached; the configured zero is
always replaced by the default. -/
theorem C14_flush_modes_reachable :
    (∃ p, buildProxy (some sampleConfig3) = some p ∧ p.FlushInterval = 250 * Millisecond ∧
      0 < p.FlushInterval) ∧
    (∃ p, buildProxy (some sampleConfig) = some p ∧ p.FlushInterval = 100 * Millisecond ∧
      0 < p.FlushInterval) ∧
    (∃ p, buildProxy (some sampleConfig2) = some p ∧ p.FlushInterval = -1 ∧
      p.FlushInterval < 0) ∧
    (∀ cfg p, buildProxy (some cfg) = some p → cfg.FlushInterval = 0 →
      p.FlushInterval = 100 * Millisecond) := by
  refine ⟨⟨_, buildProxy_some sampleConfig3, by decide, by decide⟩,
    ⟨_, buildProxy_some sampleConfig, by decide, by decide⟩,
    ⟨_, buildProxy_some sampleConfig2, by decide, by decide⟩, ?_⟩
  intro cfg p hp h0
  rw [buildProxy_some] at hp
  cases hp
  simp [h0]

/-- C18: evaluation at the nil configuration. The flush interval is computed
under the nil guard, but building the proxy value dereferences the nil pointer
(`responseForwarding.DefaultRoundTripper`), so buildProxy panics and returns no
handler. -/
theorem C18_buildProxy_nil_panics :
    buildProxy none = none ∧
    ¬ ∃ p, buildProxy none = some p ∧ p.FlushInterval = 100 * Millisecond := by
  refine ⟨rfl, ?_⟩
  rintro ⟨p, hp, _⟩
  simp [buildProxy] at hp

/-! ## Director: second run and frame -/

theorem pathSource_of_empty (parse : String → Option URL) (r : Request) (url : URL)
    (he : r.RequestURI = "") : pathSource parse r url = url := by
  simp [pathSource, effectiveURL, he]

theorem rewrittenHeader_other (cfg : ResponseForwardingConfig) (host0 : String)
    (h : Header) (k : String) (h1 : k ≠ "X-Forwarded-Host") (h2 : k ≠ "X-Origin-Host")
    (h3 : k ≠ "User-Agent") (h4 : k ≠ "Sec-WebSocket-Key") (h5 : k ≠ "Sec-Websocket-Key") :
    rewrittenHeader cfg host0 h k = h k := by
  simp only [rewrittenHeader, Header.Add, Header.Set, canonical_forwarded, canonical_origin,
    canonical_user_agent]
  split <;> simp [Header.assign, Header.delete, h1, h2, h3, h4, h5]

/-- C15: running the Director for `c1` and then the Director for `c2` on a request
with non-nil URL and header map returns both times; after the second run Path,
RawPath and RawQuery are those the first run left, and Host and URL.Host are the
host of `c2`. -/
theorem C15_director_second_run_keeps_path (c1 c2 : ResponseForwardingConfig)
    (parse1 parse2 : String → Option URL) (r : Request) (url : URL) (h : Header)
    (hU : r.URL = some url) (hH : r.Header = some h) :
    ∃ out1 out2 u1 u2, Director c1 parse1 r = some out1 ∧
      Director c2 parse2 out1 = some out2 ∧
      out1.URL = some u1 ∧ out2.URL = some u2 ∧
      u2.Path = u1.Path ∧ u2.RawPath = u1.RawPath ∧ u2.RawQuery = u1.RawQuery ∧
      out2.Host = c2.Host ∧ u2.Host = c2.Host := by
  have e1 := Director_closed_form c1 parse1 r url h hU hH
  refine ⟨_, _, _, _, e1, Director_closed_form c2 parse2 _ _ _ rfl rfl, rfl, rfl, ?_, ?_, ?_,
    rfl, rfl⟩ <;>
    simp [pathSource_of_empty]

/-- C15 at the sample request, first for `upstream.internal:8080`, then for
`next.internal:9090`. -/
theorem C15_director_second_run_keeps_path_witness :
    ∃ out1 out2 u1 u2, Director sampleConfig sampleParse sampleRequest = some out1 ∧
      Director sampleConfig2 sampleParse out1 = some out2 ∧
      out1.URL = some u1 ∧ out2.URL = some u2 ∧
      u2.Path = u1.Path ∧ u2.RawPath = u1.RawPath ∧ u2.RawQuery = u1.RawQuery ∧
      out2.Host = "next.internal:9090" ∧ u2.Host = "next.internal:9090" :=
  C15_director_second_run_keeps_path sampleConfig sampleConfig2 sampleParse sampleParse
    sampleRequest sampleURL sampleHeader rfl rfl

/-- C16: evaluation where the miscapitalized key is absent. A present
Sec-WebSocket-Key loses its values (also on the second of two Director runs), and
an absent one becomes present with no value: line 77 assigns without testing for
the miscapitalized key. -/
theorem C16_websocket_key_overwritten :
    sampleSecondHopHeader "Sec-Websocket-Key" = none ∧
    sampleSecondHopHeader "Sec-WebSocket-Key" = some ["k1", "k2"] ∧
    headerAfter (Director sampleConfig2 sampleParse sampleSecondHopRequest)
      "Sec-WebSocket-Key" = some [] ∧
    headerAfter (Director sampleConfig sampleParse sampleRequest)
      "Sec-WebSocket-Key" = some ["k1", "k2"] ∧
    headerAfter ((Director sampleConfig sampleParse sampleRequest).bind
      (Director sampleConfig2 sampleParse)) "Sec-WebSocket-Key" = some [] ∧
    sampleHeaderUA "Sec-Websocket-Key" = none ∧
    sampleHeaderUA "Sec-WebSocket-Key" = none ∧
    headerAfter (Director sampleConfig sampleParse sampleRequestUA)
      "Sec-WebSocket-Key" = some [] := by
  decide

/-- C17: on a request with non-nil URL and header map the Director returns a
request in which every header key other than X-Forwarded-Host, X-Origin-Host,
User-Agent, Sec-WebSocket-Key and Sec-Websocket-Key has the binding it had, the
method is the inbound method, and the URL's scheme (like its Opaque, User,
ForceQuery and Fragment) is the inbound one: no scheme is supplied. -/
theorem C17_director_frame (cfg : ResponseForwardingConfig)
    (parse : String → Option URL) (r : Request) (url : URL) (h : Header)
    (hU : r.URL = some url) (hH : r.Header = some h) :
    ∃ out outURL outHeader, Director cfg parse r = some out ∧ out.URL = some outURL ∧
      out.Header = some outHeader ∧
      (∀ k, k ≠ "X-Forwarded-Host" → k ≠ "X-Origin-Host" → k ≠ "User-Agent" →
        k ≠ "Sec-WebSocket-Key" → k ≠ "Sec-Websocket-Key" → outHeader k = h k) ∧
      out.Method = r.Method ∧ outURL.Scheme = url.Scheme ∧
      outURL.Opaque = url.Opaque ∧ outURL.User = url.User ∧
      outURL.ForceQuery = url.ForceQuery ∧ outURL.Fragment = url.Fragment :=
  ⟨_, _, _, Director_closed_form cfg parse r url h hU hH, rfl, rfl,
    fun k h1 h2 h3 h4 h5 => rewrittenHeader_other cfg r.Host h k h1 h2 h3 h4 h5,
    rfl, rfl, rfl, rfl, rfl, rfl⟩

/-- C17 at the second-hop sample request: `X-Trace` keeps its value, the method
stays GET and the scheme stays empty. -/
theorem C17_director_frame_witness :
    sampleSecondHopHeader "X-Trace" = some ["t1"] ∧ sampleURL.Scheme = "" ∧
    ∃ out outURL outHeader,
      Director sampleConfig sampleParse sampleSecondHopRequest = some out ∧
      out.URL = some outURL ∧ out.Header = some outHeader ∧
      outHeader "X-Trace" = some ["t1"] ∧ out.Method = "GET" ∧ outURL.Scheme = "" := by
  obtain ⟨out, outURL, outHeader, hout, hurl, hhdr, hframe, hm, hs, _⟩ :=
    C17_director_frame sampleConfig sampleParse sampleSecondHopRequest sampleURL
      sampleSecondHopHeader rfl rfl
  refine ⟨by decide, rfl, out, outURL, outHeader, hout, hurl, hhdr, ?_, hm, hs⟩
  rw [hframe "X-Trace" (by decide) (by decide) (by decide) (by decide) (by decide)]
  decide

end ProxyFatory
